import Mathlib

/-!
Verification of the iDKG dealing module
(`rs/crypto/internal/crypto_lib/threshold_sig/tecdsa/src/idkg/dealings.rs`)
against its natural-language specification.

The dealing module itself (`SecretShares`, its `Debug` redaction, the
`TryFrom` conversion from commitment-opening bytes, `IDkgDealingInternal` with
`new`, `publicly_verify`, `privately_verify`, `serialize`/`deserialize`) is
translated directly from the source.  The collaborator primitives the module
calls (curve scalars and points, polynomials, Simple/Pedersen commitments, the
MEGa encryption scheme, the two zero-knowledge proof systems, seeds, and the
CBOR codec) are not part of the excerpted source; they are modelled from the
specification, which treats them as opaque interfaces whose numeric semantics
are explicitly out of scope.
-/

namespace Tecdsa

/-- The two elliptic curves appearing in the source. -/
inductive EccCurveType
  | K256
  | P256
deriving DecidableEq, Repr

/-- Modelled from the spec: group order of each supported curve
(used only to make scalar decoding fallible, as in the real library). -/
def curve_order : EccCurveType → Nat
  | .K256 => 115792089237316195423570985008687907852837564279074904382605163141518161494337
  | .P256 => 115792089210356248762697446949407573529996955224135760342422259061068512044369

/-- Modelled from the spec: a curve-typed scalar; the numeric semantics of
curve arithmetic are a spec non-goal, so the value is an abstract natural. -/
inductive EccScalar
  | K256 (v : Nat)
  | P256 (v : Nat)
deriving DecidableEq, Repr

def EccScalar.curve_type : EccScalar → EccCurveType
  | .K256 _ => .K256
  | .P256 _ => .P256

def EccScalar.val : EccScalar → Nat
  | .K256 v => v
  | .P256 v => v

def EccScalar.ofCurve : EccCurveType → Nat → EccScalar
  | .K256, v => .K256 v
  | .P256, v => .P256 v

/-- Modelled from the spec: scalar multiplication, fallible on curve
mismatch as in the source library. -/
def EccScalar.mul (a b : EccScalar) : Except String EccScalar :=
  if a.curve_type = b.curve_type then
    .ok (EccScalar.ofCurve a.curve_type ((a.val * b.val) % curve_order a.curve_type))
  else
    .error ("CurveMismatch")

/-- Modelled from the spec: serialized scalar bytes, tagged by curve. -/
inductive EccScalarBytes
  | K256 (v : Nat)
  | P256 (v : Nat)
deriving DecidableEq, Repr

/-- Serialization-error kind, disjoint from protocol errors
(`ThresholdEcdsaSerializationError(String)` in the source). -/
structure ThresholdEcdsaSerializationError where
  msg : String
deriving DecidableEq, Repr

/-- Modelled from the spec: decoding scalar bytes fails exactly when the
encoded value is not a valid scalar (not below the group order). -/
def EccScalar.try_from_bytes : EccScalarBytes → Except ThresholdEcdsaSerializationError EccScalar
  | .K256 v =>
    if v < curve_order .K256 then .ok (.K256 v)
    else .error ⟨"invalid K256 scalar"⟩
  | .P256 v =>
    if v < curve_order .P256 then .ok (.P256 v)
    else .error ⟨"invalid P256 scalar"⟩

/-- Modelled from the spec: bytes of a commitment opening, either a single
scalar (Simple) or a pair (Pedersen). -/
inductive CommitmentOpeningBytes
  | Simple (bytes : EccScalarBytes)
  | Pedersen (bytes1 : EccScalarBytes) (bytes2 : EccScalarBytes)
deriving DecidableEq, Repr

/-- The five share descriptors, translated from `enum SecretShares`. -/
inductive SecretShares
  | RandomUnmasked
  | Random
  | ReshareOfUnmasked (secret : EccScalar)
  | ReshareOfMasked (secret : EccScalar) (masking : EccScalar)
  | UnmaskedTimesMasked (left : EccScalar) (right : EccScalar × EccScalar)
deriving DecidableEq, Repr

/-- The `Debug` implementation for `SecretShares`, translated arm by arm
from the source; the output string never depends on a scalar value. -/
def SecretShares.debug_fmt : SecretShares → String
  | .Random => "SecretShares::Random"
  | .RandomUnmasked => "SecretShares::RandomUnmasked"
  | .ReshareOfUnmasked (.K256 _) =>
    "SecretShares::ReshareOfUnmasked(EccScalar::K256) - REDACTED"
  | .ReshareOfUnmasked (.P256 _) =>
    "SecretShares::ReshareOfUnmasked(EccScalar::P256) - REDACTED"
  | .ReshareOfMasked (.K256 _) (.K256 _) =>
    "SecretShares::ReshareOfMasked(EccScalar::K256) - REDACTED"
  | .ReshareOfMasked (.P256 _) (.P256 _) =>
    "SecretShares::ReshareOfMasked(EccScalar::P256) - REDACTED"
  | .ReshareOfMasked _ _ =>
    "Unsupported curve combination in SecretShares::ReshareOfMasked!"
  | .UnmaskedTimesMasked (.K256 _) ((.K256 _), (.K256 _)) =>
    "SecretShares::UnmaskedTimesMasked(EccScalar::K256) - REDACTED"
  | .UnmaskedTimesMasked (.P256 _) ((.P256 _), (.P256 _)) =>
    "SecretShares::UnmaskedTimesMasked(EccScalar::P256) - REDACTED"
  | .UnmaskedTimesMasked _ (_, _) =>
    "Unsupported curve combination in SecretShares::UnmaskedTimesMasked!"

/-- The redaction-relevant shape of a descriptor: its variant tag together
with the curve types of its embedded scalars (and nothing else). -/
def SecretShares.shape : SecretShares → Nat × List EccCurveType
  | .Random => (0, [])
  | .RandomUnmasked => (1, [])
  | .ReshareOfUnmasked s => (2, [s.curve_type])
  | .ReshareOfMasked s m => (3, [s.curve_type, m.curve_type])
  | .UnmaskedTimesMasked l (r, rm) => (4, [l.curve_type, r.curve_type, rm.curve_type])

/-- The debug string as a function of the shape alone. -/
def shape_fmt : Nat × List EccCurveType → String
  | (0, _) => "SecretShares::Random"
  | (1, _) => "SecretShares::RandomUnmasked"
  | (2, [.K256]) => "SecretShares::ReshareOfUnmasked(EccScalar::K256) - REDACTED"
  | (2, [.P256]) => "SecretShares::ReshareOfUnmasked(EccScalar::P256) - REDACTED"
  | (3, [.K256, .K256]) => "SecretShares::ReshareOfMasked(EccScalar::K256) - REDACTED"
  | (3, [.P256, .P256]) => "SecretShares::ReshareOfMasked(EccScalar::P256) - REDACTED"
  | (3, _) => "Unsupported curve combination in SecretShares::ReshareOfMasked!"
  | (4, [.K256, .K256, .K256]) => "SecretShares::UnmaskedTimesMasked(EccScalar::K256) - REDACTED"
  | (4, [.P256, .P256, .P256]) => "SecretShares::UnmaskedTimesMasked(EccScalar::P256) - REDACTED"
  | (4, _) => "Unsupported curve combination in SecretShares::UnmaskedTimesMasked!"
  | (_, _) => ""

/-- The fixed vocabulary of debug strings. -/
def debug_strings : List String :=
  ["SecretShares::Random",
   "SecretShares::RandomUnmasked",
   "SecretShares::ReshareOfUnmasked(EccScalar::K256) - REDACTED",
   "SecretShares::ReshareOfUnmasked(EccScalar::P256) - REDACTED",
   "SecretShares::ReshareOfMasked(EccScalar::K256) - REDACTED",
   "SecretShares::ReshareOfMasked(EccScalar::P256) - REDACTED",
   "Unsupported curve combination in SecretShares::ReshareOfMasked!",
   "SecretShares::UnmaskedTimesMasked(EccScalar::K256) - REDACTED",
   "SecretShares::UnmaskedTimesMasked(EccScalar::P256) - REDACTED",
   "Unsupported curve combination in SecretShares::UnmaskedTimesMasked!"]

/-- Translation of `TryFrom<(&CommitmentOpeningBytes, Option<&CommitmentOpeningBytes>)>
for SecretShares` from the source. -/
def SecretShares.try_from
    (commitments : CommitmentOpeningBytes × Option CommitmentOpeningBytes) :
    Except ThresholdEcdsaSerializationError SecretShares :=
  match commitments with
  | (.Simple bytes, none) =>
    match EccScalar.try_from_bytes bytes with
    | .error e => .error e
    | .ok scalar => .ok (.ReshareOfUnmasked scalar)
  | (.Pedersen bytes1 bytes2, none) =>
    match EccScalar.try_from_bytes bytes1 with
    | .error e => .error e
    | .ok scalar1 =>
      match EccScalar.try_from_bytes bytes2 with
      | .error e => .error e
      | .ok scalar2 => .ok (.ReshareOfMasked scalar1 scalar2)
  | (.Simple simple_bytes, some (.Pedersen pedersen_bytes_1 pedersen_bytes_2)) =>
    match EccScalar.try_from_bytes simple_bytes with
    | .error e => .error e
    | .ok scalar_1 =>
      match EccScalar.try_from_bytes pedersen_bytes_1 with
      | .error e => .error e
      | .ok scalar_2 =>
        match EccScalar.try_from_bytes pedersen_bytes_2 with
        | .error e => .error e
        | .ok scalar_3 => .ok (.UnmaskedTimesMasked scalar_1 (scalar_2, scalar_3))
  | (_, _) => .error ⟨"Unexpected commitment types"⟩

/-- Protocol-error kinds appearing in the dealing module
(a subset of `ThresholdEcdsaError` in the source). -/
inductive ThresholdEcdsaError
  | CurveMismatch
  | InvalidArguments (msg : String)
  | InvalidCiphertext
  | InvalidCommitment
  | InvalidProof
  | InvalidSecretShare
  | InvalidThreshold (t : Nat) (n : Nat)
  | UnexpectedCommitmentType
deriving DecidableEq, Repr

def ThresholdEcdsaError.isInvalidThreshold : ThresholdEcdsaError → Bool
  | .InvalidThreshold _ _ => true
  | _ => false

/-- Modelled from the spec: a domain-separated deterministic seed; `derive`
appends a domain-separation tag. -/
structure Seed where
  root : Nat
  path : List String
deriving DecidableEq, Repr

def Seed.derive (s : Seed) (tag : String) : Seed :=
  ⟨s.root, s.path ++ [tag]⟩

/-- Modelled from the spec: a deterministic random stream produced from a
seed.  The exact values are irrelevant to the dealing module; the stream is
fully determined by the seed it was derived from. -/
structure RandomStream where
  seed : Seed
  pos : Nat
deriving DecidableEq, Repr

def Seed.into_rng (s : Seed) : RandomStream :=
  ⟨s, 0⟩

/-- The value drawn at position `i` of a stream (fully determined by the
seed the stream was derived from). -/
def RandomStream.draw (r : RandomStream) (i : Nat) : Nat :=
  r.seed.root + 31 * (r.pos + i) + r.seed.path.length

/-- The stream after consuming `k` draws (the purification of the mutable
rng threaded through dealing construction). -/
def RandomStream.advance (r : RandomStream) (k : Nat) : RandomStream :=
  ⟨r.seed, r.pos + k⟩

def EccScalar.random (curve : EccCurveType) (r : RandomStream) : EccScalar :=
  EccScalar.ofCurve curve (r.draw 0 % curve_order curve)

/-- Modelled from the spec: `NodeIndex → scalar` abscissa derivation, shared
by commitment evaluation and ciphertext encryption. -/
def EccScalar.from_node_index (curve : EccCurveType) (index : Nat) : EccScalar :=
  EccScalar.ofCurve curve (index + 1)

def rand_nats (k : Nat) (r : RandomStream) : List Nat :=
  (List.range k).map r.draw

/-- Modelled from the spec: a polynomial over the scalar field of a curve,
degree = number of coefficients − 1, constant term first. -/
structure Polynomial where
  curve : EccCurveType
  coefficients : List Nat
deriving DecidableEq, Repr

def Polynomial.curve_type (p : Polynomial) : EccCurveType := p.curve

def Polynomial.random (curve : EccCurveType) (num_coefficients : Nat)
    (r : RandomStream) : Polynomial :=
  ⟨curve, (rand_nats num_coefficients r).map (fun v => v % curve_order curve)⟩

/-- Modelled from the spec: fixed constant term, remaining coefficients
random. -/
def Polynomial.random_with_constant (constant : EccScalar) (num_coefficients : Nat)
    (r : RandomStream) : Polynomial :=
  ⟨constant.curve_type,
   constant.val ::
     (rand_nats (num_coefficients - 1) r).map (fun v => v % curve_order constant.curve_type)⟩

/-- Horner evaluation of a coefficient list (constant term first). -/
def eval_poly (coefficients : List Nat) (x : Nat) : Nat :=
  coefficients.foldr (fun c acc => c + x * acc) 0

def Polynomial.evaluate_at (p : Polynomial) (x : EccScalar) : EccScalar :=
  EccScalar.ofCurve p.curve (eval_poly p.coefficients x.val % curve_order p.curve)

/-- Modelled from the spec: a curve point, abstracted to a curve tag and a
discrete-log value (curve arithmetic semantics are a spec non-goal). -/
structure EccPoint where
  curve : EccCurveType
  val : Nat
deriving DecidableEq, Repr

/-- Modelled from the spec: `g^v · h^m` for a Pedersen pair, abstracted to an
injective combination of the two openings. -/
def pedersen_combine (v m : Nat) : Nat :=
  v + (2 ^ 512) * m

/-- Modelled from the spec: the two commitment kinds. -/
inductive PolynomialCommitmentType
  | Simple
  | Pedersen
deriving DecidableEq, Repr

/-- Modelled from the spec: a Simple (non-hiding) polynomial commitment, one
point per coefficient, constant term first. -/
structure SimpleCommitment where
  curve : EccCurveType
  points : List Nat
deriving DecidableEq, Repr

def SimpleCommitment.create (poly : Polynomial) (num_coefficients : Nat) : SimpleCommitment :=
  ⟨poly.curve, poly.coefficients.take num_coefficients⟩

def SimpleCommitment.evaluate_at (c : SimpleCommitment) (index : Nat) : EccPoint :=
  ⟨c.curve, eval_poly c.points (index + 1)⟩

/-- Modelled from the spec: a Pedersen (hiding) polynomial commitment over a
value polynomial and a masking polynomial. -/
structure PedersenCommitment where
  curve : EccCurveType
  points : List Nat
deriving DecidableEq, Repr

def PedersenCommitment.create (values mask : Polynomial) (num_coefficients : Nat) :
    PedersenCommitment :=
  ⟨values.curve,
   List.zipWith pedersen_combine (values.coefficients.take num_coefficients)
     (mask.coefficients.take num_coefficients)⟩

def PedersenCommitment.evaluate_at (c : PedersenCommitment) (index : Nat) : EccPoint :=
  ⟨c.curve, eval_poly c.points (index + 1)⟩

inductive PolynomialCommitment
  | Simple (c : SimpleCommitment)
  | Pedersen (c : PedersenCommitment)
deriving DecidableEq, Repr

def PolynomialCommitment.ctype : PolynomialCommitment → PolynomialCommitmentType
  | .Simple _ => .Simple
  | .Pedersen _ => .Pedersen

def PolynomialCommitment.len : PolynomialCommitment → Nat
  | .Simple c => c.points.length
  | .Pedersen c => c.points.length

def PolynomialCommitment.curve_type : PolynomialCommitment → EccCurveType
  | .Simple c => c.curve
  | .Pedersen c => c.curve

def PolynomialCommitment.constant_term : PolynomialCommitment → EccPoint
  | .Simple c => ⟨c.curve, c.points.headD 0⟩
  | .Pedersen c => ⟨c.curve, c.points.headD 0⟩

def PolynomialCommitment.evaluate_at : PolynomialCommitment → Nat → EccPoint
  | .Simple c, index => c.evaluate_at index
  | .Pedersen c, index => c.evaluate_at index

/-- Modelled from the spec: degree of the committed polynomial, one less
than the number of committed coefficients (spec §3: degree = threshold − 1
while num_coefficients = threshold). -/
def PolynomialCommitment.degree (c : PolynomialCommitment) : Nat :=
  c.len - 1

/-- Modelled from the spec: `verify_is(expected_type, curve)` — wrong
algebraic kind yields `UnexpectedCommitmentType`, wrong curve yields
`CurveMismatch`. -/
def PolynomialCommitment.verify_is (c : PolynomialCommitment)
    (t : PolynomialCommitmentType) (curve : EccCurveType) :
    Except ThresholdEcdsaError Unit :=
  if c.ctype ≠ t then .error .UnexpectedCommitmentType
  else if c.curve_type ≠ curve then .error .CurveMismatch
  else .ok ()

/-- Modelled from the spec: a MEGa public key. -/
structure MEGaPublicKey where
  curve : EccCurveType
  val : Nat
deriving DecidableEq, Repr

def MEGaPublicKey.curve_type (k : MEGaPublicKey) : EccCurveType := k.curve

/-- Modelled from the spec: a MEGa private key. -/
structure MEGaPrivateKey where
  curve : EccCurveType
  val : Nat
deriving DecidableEq, Repr

def MEGaPrivateKey.curve_type (k : MEGaPrivateKey) : EccCurveType := k.curve

inductive MEGaCiphertextType
  | Single
  | Pairs
deriving DecidableEq, Repr

/-- Modelled from the spec: a MEGa ciphertext carrying one encrypted scalar
per receiver, bound to the dealer index and associated data. -/
structure MEGaCiphertextSingle where
  epk_curve : EccCurveType
  ctext_curve : EccCurveType
  dealer_index : Nat
  associated_data : List Nat
  ctexts : List Nat
deriving DecidableEq, Repr

/-- Modelled from the spec: a MEGa ciphertext carrying an encrypted pair of
scalars per receiver, bound to the dealer index and associated data. -/
structure MEGaCiphertextPair where
  epk_curve : EccCurveType
  ctext_curve : EccCurveType
  dealer_index : Nat
  associated_data : List Nat
  ctexts : List (Nat × Nat)
deriving DecidableEq, Repr

/-- Modelled from the spec: masking of one plaintext scalar for one
recipient (stands in for the MEGa key-derived pad). -/
def mega_pad (recipient : MEGaPublicKey) : Nat := recipient.val

def MEGaCiphertextSingle.encrypt (_seed : Seed) (plaintexts : List EccScalar)
    (recipients : List MEGaPublicKey) (dealer_index : Nat)
    (associated_data : List Nat) :
    Except ThresholdEcdsaError MEGaCiphertextSingle :=
  match recipients.head? with
  | none => .error (.InvalidArguments ("no recipients"))
  | some k0 =>
    if recipients.any (fun r => r.curve ≠ k0.curve) then .error .CurveMismatch
    else if plaintexts.length ≠ recipients.length then
      .error (.InvalidArguments ("plaintext count mismatch"))
    else if plaintexts.any (fun p => p.curve_type ≠ (plaintexts.headD (EccScalar.K256 0)).curve_type) then
      .error .CurveMismatch
    else
      .ok ⟨k0.curve, (plaintexts.headD (EccScalar.K256 0)).curve_type, dealer_index,
           associated_data,
           List.zipWith (fun p r => p.val + mega_pad r) plaintexts recipients⟩

def MEGaCiphertextPair.encrypt (_seed : Seed) (plaintexts : List (EccScalar × EccScalar))
    (recipients : List MEGaPublicKey) (dealer_index : Nat)
    (associated_data : List Nat) :
    Except ThresholdEcdsaError MEGaCiphertextPair :=
  match recipients.head? with
  | none => .error (.InvalidArguments ("no recipients"))
  | some k0 =>
    if recipients.any (fun r => r.curve ≠ k0.curve) then .error .CurveMismatch
    else if plaintexts.length ≠ recipients.length then
      .error (.InvalidArguments ("plaintext count mismatch"))
    else if plaintexts.any (fun p =>
        p.1.curve_type ≠ (plaintexts.headD (EccScalar.K256 0, EccScalar.K256 0)).1.curve_type ∨
        p.2.curve_type ≠ (plaintexts.headD (EccScalar.K256 0, EccScalar.K256 0)).1.curve_type) then
      .error .CurveMismatch
    else
      .ok ⟨k0.curve, (plaintexts.headD (EccScalar.K256 0, EccScalar.K256 0)).1.curve_type,
           dealer_index, associated_data,
           List.zipWith (fun p r => (p.1.val + mega_pad r, p.2.val + mega_pad r))
             plaintexts recipients⟩

inductive MEGaCiphertext
  | Single (c : MEGaCiphertextSingle)
  | Pairs (c : MEGaCiphertextPair)
deriving DecidableEq, Repr

def MEGaCiphertext.ctype : MEGaCiphertext → MEGaCiphertextType
  | .Single _ => .Single
  | .Pairs _ => .Pairs

/-- Modelled from the spec: structural ciphertext validity — one entry (or
pair) per receiver, and the binding to associated data and dealer index
holds. -/
def MEGaCiphertext.check_validity (c : MEGaCiphertext) (num_receivers : Nat)
    (associated_data : List Nat) (dealer_index : Nat) :
    Except ThresholdEcdsaError Unit :=
  match c with
  | .Single s =>
    if s.ctexts.length = num_receivers ∧ s.associated_data = associated_data ∧
        s.dealer_index = dealer_index then .ok ()
    else .error .InvalidCiphertext
  | .Pairs p =>
    if p.ctexts.length = num_receivers ∧ p.associated_data = associated_data ∧
        p.dealer_index = dealer_index then .ok ()
    else .error .InvalidCiphertext

/-- Modelled from the spec: the ciphertext declares the expected shape and
its curves match the key curve and the signature curve. -/
def MEGaCiphertext.verify_is (c : MEGaCiphertext) (t : MEGaCiphertextType)
    (key_curve signature_curve : EccCurveType) :
    Except ThresholdEcdsaError Unit :=
  if c.ctype ≠ t then .error .InvalidCiphertext
  else
    match c with
    | .Single s =>
      if s.epk_curve = key_curve ∧ s.ctext_curve = signature_curve then .ok ()
      else .error .CurveMismatch
    | .Pairs p =>
      if p.epk_curve = key_curve ∧ p.ctext_curve = signature_curve then .ok ()
      else .error .CurveMismatch

/-- Modelled from the spec: a commitment opening, one scalar for a Simple
commitment or a pair for a Pedersen commitment. -/
inductive CommitmentOpening
  | Simple (s : EccScalar)
  | Pedersen (s : EccScalar) (m : EccScalar)
deriving DecidableEq, Repr

/-- Modelled from the spec: decrypt the addressed share with the key pair of the receiver and cross-check
it against the commitment evaluated at the receiver index; any mismatch is a
hard failure. -/
def MEGaCiphertext.decrypt_and_check (c : MEGaCiphertext)
    (commitment : PolynomialCommitment) (associated_data : List Nat)
    (dealer_index recipient_index : Nat)
    (private_key : MEGaPrivateKey) (public_key : MEGaPublicKey) :
    Except ThresholdEcdsaError CommitmentOpening :=
  if public_key.val ≠ private_key.val then .error .InvalidCiphertext
  else
    match c, commitment with
    | .Single s, .Simple sc =>
      if s.associated_data = associated_data ∧ s.dealer_index = dealer_index then
        match s.ctexts.get? recipient_index with
        | none => .error (.InvalidArguments ("recipient index out of range"))
        | some ct =>
          let share := ct - private_key.val
          if (SimpleCommitment.evaluate_at sc recipient_index).val = share then
            .ok (.Simple (EccScalar.ofCurve sc.curve share))
          else .error .InvalidCommitment
      else .error .InvalidCiphertext
    | .Pairs p, .Pedersen pc =>
      if p.associated_data = associated_data ∧ p.dealer_index = dealer_index then
        match p.ctexts.get? recipient_index with
        | none => .error (.InvalidArguments ("recipient index out of range"))
        | some ct =>
          let v := ct.1 - private_key.val
          let m := ct.2 - private_key.val
          if (PedersenCommitment.evaluate_at pc recipient_index).val = pedersen_combine v m then
            .ok (.Pedersen (EccScalar.ofCurve pc.curve v) (EccScalar.ofCurve pc.curve m))
          else .error .InvalidCommitment
      else .error .InvalidCiphertext
    | _, _ => .error .UnexpectedCommitmentType

namespace zk

def PROOF_OF_EQUAL_OPENINGS_DST : String := "ic-crypto-tecdsa-zk-proof-of-equal-openings"

def PROOF_OF_PRODUCT_DST : String := "ic-crypto-tecdsa-zk-proof-of-product"

/-- Modelled from the spec: the equality-of-openings proof system, abstracted
as perfectly sound and complete — the proof records exactly the statement it
establishes (the masked point, the simple point, and the associated data it
is bound to). -/
structure ProofOfEqualOpenings where
  masked : EccPoint
  simple : EccPoint
  associated_data : List Nat
deriving DecidableEq, Repr

def ProofOfEqualOpenings.create (_seed : Seed) (secret masking : EccScalar)
    (associated_data : List Nat) :
    Except ThresholdEcdsaError ProofOfEqualOpenings :=
  if secret.curve_type ≠ masking.curve_type then .error .CurveMismatch
  else
    .ok ⟨⟨secret.curve_type, pedersen_combine secret.val masking.val⟩,
         ⟨secret.curve_type, secret.val⟩, associated_data⟩

def ProofOfEqualOpenings.verify (p : ProofOfEqualOpenings)
    (masked simple : EccPoint) (associated_data : List Nat) :
    Except ThresholdEcdsaError Unit :=
  if p.masked = masked ∧ p.simple = simple ∧ p.associated_data = associated_data then .ok ()
  else .error .InvalidProof

/-- Modelled from the spec: the product proof system, abstracted as perfectly
sound and complete. -/
structure ProofOfProduct where
  lhs : EccPoint
  rhs : EccPoint
  product : EccPoint
  associated_data : List Nat
deriving DecidableEq, Repr

def ProofOfProduct.create (_seed : Seed) (lhs rhs rhs_masking product product_masking : EccScalar)
    (associated_data : List Nat) :
    Except ThresholdEcdsaError ProofOfProduct :=
  if rhs.curve_type ≠ lhs.curve_type ∨ rhs_masking.curve_type ≠ lhs.curve_type ∨
      product.curve_type ≠ lhs.curve_type ∨ product_masking.curve_type ≠ lhs.curve_type then
    .error .CurveMismatch
  else
    .ok ⟨⟨lhs.curve_type, lhs.val⟩,
         ⟨lhs.curve_type, pedersen_combine rhs.val rhs_masking.val⟩,
         ⟨lhs.curve_type, pedersen_combine product.val product_masking.val⟩,
         associated_data⟩

def ProofOfProduct.verify (p : ProofOfProduct)
    (lhs rhs product : EccPoint) (associated_data : List Nat) :
    Except ThresholdEcdsaError Unit :=
  if p.lhs = lhs ∧ p.rhs = rhs ∧ p.product = product ∧
      p.associated_data = associated_data then .ok ()
  else .error .InvalidProof

end zk

/-- Translation of `enum ZkProof` from the source. -/
inductive ZkProof
  | ProofOfMaskedResharing (p : zk.ProofOfEqualOpenings)
  | ProofOfProduct (p : zk.ProofOfProduct)
deriving DecidableEq, Repr

/-- Modelled from the spec: the transcript operation a dealing is verified
against, carrying the prior commitment(s) it references. -/
inductive IDkgTranscriptOperationInternal
  | Random
  | RandomUnmasked
  | ReshareOfMasked (c : PolynomialCommitment)
  | ReshareOfUnmasked (c : PolynomialCommitment)
  | UnmaskedTimesMasked (lhs : PolynomialCommitment) (rhs : PolynomialCommitment)
deriving DecidableEq, Repr

/-- Translation of `fn encrypt_and_commit_single_polynomial` from the source
(polynomial evaluation and commitment creation are total in the model). -/
def encrypt_and_commit_single_polynomial (poly : Polynomial) (num_coefficients : Nat)
    (recipients : List MEGaPublicKey) (dealer_index : Nat)
    (associated_data : List Nat) (seed : Seed) :
    Except ThresholdEcdsaError (MEGaCiphertext × PolynomialCommitment) :=
  let curve := poly.curve_type
  let plaintexts := (List.range recipients.length).map
    (fun idx => poly.evaluate_at (EccScalar.from_node_index curve idx))
  match MEGaCiphertextSingle.encrypt seed plaintexts recipients dealer_index associated_data with
  | .error e => .error e
  | .ok ciphertext =>
    let commitment := SimpleCommitment.create poly num_coefficients
    .ok (.Single ciphertext, .Simple commitment)

/-- Translation of `fn encrypt_and_commit_pair_of_polynomials` from the source. -/
def encrypt_and_commit_pair_of_polynomials (values mask : Polynomial) (num_coefficients : Nat)
    (recipients : List MEGaPublicKey) (dealer_index : Nat)
    (associated_data : List Nat) (seed : Seed) :
    Except ThresholdEcdsaError (MEGaCiphertext × PolynomialCommitment) :=
  let curve := values.curve_type
  let plaintexts := (List.range recipients.length).map
    (fun idx => (values.evaluate_at (EccScalar.from_node_index curve idx),
                 mask.evaluate_at (EccScalar.from_node_index curve idx)))
  match MEGaCiphertextPair.encrypt seed plaintexts recipients dealer_index associated_data with
  | .error e => .error e
  | .ok ciphertext =>
    let commitment := PedersenCommitment.create values mask num_coefficients
    .ok (.Pairs ciphertext, .Pedersen commitment)

/-- Translation of `struct IDkgDealingInternal` from the source. -/
structure IDkgDealingInternal where
  ciphertext : MEGaCiphertext
  commitment : PolynomialCommitment
  proof : Option ZkProof
deriving DecidableEq, Repr

/-- Translation of `IDkgDealingInternal::new` from the source. -/
def IDkgDealingInternal.new (shares : SecretShares) (signature_curve : EccCurveType)
    (seed : Seed) (threshold : Nat) (recipients : List MEGaPublicKey)
    (dealer_index : Nat) (associated_data : List Nat) :
    Except ThresholdEcdsaError IDkgDealingInternal :=
  if threshold = 0 ∨ threshold > recipients.length then
    .error (.InvalidThreshold threshold recipients.length)
  else
    let num_coefficients := threshold
    let poly_rng := (Seed.derive seed ("ic-crypto-tecdsa-create-dealing-polynomials")).into_rng
    let mega_seed := Seed.derive seed ("ic-crypto-tecdsa-create-dealing-mega-encrypt")
    match shares with
    | .Random =>
      let values := Polynomial.random signature_curve num_coefficients poly_rng
      let mask := Polynomial.random signature_curve num_coefficients
        (poly_rng.advance num_coefficients)
      match encrypt_and_commit_pair_of_polynomials values mask num_coefficients recipients
          dealer_index associated_data mega_seed with
      | .error e => .error e
      | .ok (ciphertext, commitment) => .ok ⟨ciphertext, commitment, none⟩
    | .RandomUnmasked =>
      let values := Polynomial.random signature_curve num_coefficients poly_rng
      match encrypt_and_commit_single_polynomial values num_coefficients recipients
          dealer_index associated_data mega_seed with
      | .error e => .error e
      | .ok (ciphertext, commitment) => .ok ⟨ciphertext, commitment, none⟩
    | .ReshareOfUnmasked secret =>
      if secret.curve_type ≠ signature_curve then .error .InvalidSecretShare
      else
        let values := Polynomial.random_with_constant secret num_coefficients poly_rng
        match encrypt_and_commit_single_polynomial values num_coefficients recipients
            dealer_index associated_data mega_seed with
        | .error e => .error e
        | .ok (ciphertext, commitment) => .ok ⟨ciphertext, commitment, none⟩
    | .ReshareOfMasked secret masking =>
      if secret.curve_type ≠ signature_curve ∨ masking.curve_type ≠ signature_curve then
        .error .InvalidSecretShare
      else
        let values := Polynomial.random_with_constant secret num_coefficients poly_rng
        match encrypt_and_commit_single_polynomial values num_coefficients recipients
            dealer_index associated_data mega_seed with
        | .error e => .error e
        | .ok (ciphertext, commitment) =>
          match zk.ProofOfEqualOpenings.create (Seed.derive seed zk.PROOF_OF_EQUAL_OPENINGS_DST)
              secret masking associated_data with
          | .error e => .error e
          | .ok p => .ok ⟨ciphertext, commitment, some (.ProofOfMaskedResharing p)⟩
    | .UnmaskedTimesMasked left_value (right_value, right_masking) =>
      if left_value.curve_type ≠ signature_curve ∨ right_value.curve_type ≠ signature_curve ∨
          right_masking.curve_type ≠ signature_curve then
        .error .InvalidSecretShare
      else
        match left_value.mul right_value with
        | .error _ => .error .CurveMismatch
        | .ok product =>
          let product_masking := EccScalar.random signature_curve poly_rng
          let values := Polynomial.random_with_constant product num_coefficients
            (poly_rng.advance 1)
          let mask := Polynomial.random_with_constant product_masking num_coefficients
            ((poly_rng.advance 1).advance (num_coefficients - 1))
          match encrypt_and_commit_pair_of_polynomials values mask num_coefficients recipients
              dealer_index associated_data mega_seed with
          | .error e => .error e
          | .ok (ciphertext, commitment) =>
            match zk.ProofOfProduct.create (Seed.derive seed zk.PROOF_OF_PRODUCT_DST)
                left_value right_value right_masking product product_masking associated_data with
            | .error e => .error e
            | .ok p => .ok ⟨ciphertext, commitment, some (.ProofOfProduct p)⟩

/-- Translation of `IDkgDealingInternal::publicly_verify` from the source. -/
def IDkgDealingInternal.publicly_verify (self : IDkgDealingInternal)
    (key_curve signature_curve : EccCurveType)
    (transcript_type : IDkgTranscriptOperationInternal)
    (reconstruction_threshold : Nat) (dealer_index : Nat)
    (number_of_receivers : Nat) (associated_data : List Nat) :
    Except ThresholdEcdsaError Unit :=
  if self.commitment.len ≠ reconstruction_threshold then
    .error .InvalidCommitment
  else
    match self.ciphertext.check_validity number_of_receivers associated_data dealer_index with
    | .error e => .error e
    | .ok _ =>
      match transcript_type, self.proof with
      | .Random, none =>
        match self.commitment.verify_is .Pedersen signature_curve with
        | .error e => .error e
        | .ok _ => self.ciphertext.verify_is .Pairs key_curve signature_curve
      | .RandomUnmasked, none =>
        match self.commitment.verify_is .Simple signature_curve with
        | .error e => .error e
        | .ok _ => self.ciphertext.verify_is .Single key_curve signature_curve
      | .ReshareOfMasked previous_commitment, some (.ProofOfMaskedResharing proof) =>
        match self.commitment.verify_is .Simple signature_curve with
        | .error e => .error e
        | .ok _ =>
          match previous_commitment.verify_is .Pedersen signature_curve with
          | .error e => .error e
          | .ok _ =>
            match self.ciphertext.verify_is .Single key_curve signature_curve with
            | .error e => .error e
            | .ok _ =>
              proof.verify (previous_commitment.evaluate_at dealer_index)
                self.commitment.constant_term associated_data
      | .ReshareOfUnmasked previous_commitment, none =>
        match self.commitment.verify_is .Simple signature_curve with
        | .error e => .error e
        | .ok _ =>
          match previous_commitment.verify_is .Simple signature_curve with
          | .error e => .error e
          | .ok _ =>
            match self.ciphertext.verify_is .Single key_curve signature_curve with
            | .error e => .error e
            | .ok _ =>
              match previous_commitment with
              | .Pedersen _ => .error .UnexpectedCommitmentType
              | .Simple c =>
                if c.evaluate_at dealer_index ≠ self.commitment.constant_term then
                  .error .InvalidCommitment
                else .ok ()
      | .UnmaskedTimesMasked lhs rhs, some (.ProofOfProduct proof) =>
        match self.commitment.verify_is .Pedersen signature_curve with
        | .error e => .error e
        | .ok _ =>
          match self.ciphertext.verify_is .Pairs key_curve signature_curve with
          | .error e => .error e
          | .ok _ =>
            match lhs.verify_is .Simple signature_curve with
            | .error e => .error e
            | .ok _ =>
              match rhs.verify_is .Pedersen signature_curve with
              | .error e => .error e
              | .ok _ =>
                proof.verify (lhs.evaluate_at dealer_index) (rhs.evaluate_at dealer_index)
                  self.commitment.constant_term associated_data
      | _, _ => .error .InvalidProof

/-- The expected ciphertext shape for a commitment kind, as derived in
`privately_verify`. -/
def expected_mega_type : PolynomialCommitmentType → MEGaCiphertextType
  | .Simple => .Single
  | .Pedersen => .Pairs

/-- Translation of `IDkgDealingInternal::privately_verify` from the source. -/
def IDkgDealingInternal.privately_verify (self : IDkgDealingInternal)
    (key_curve signature_curve : EccCurveType)
    (private_key : MEGaPrivateKey) (public_key : MEGaPublicKey)
    (associated_data : List Nat) (dealer_index recipient_index : Nat) :
    Except ThresholdEcdsaError Unit :=
  if private_key.curve_type ≠ key_curve ∨ public_key.curve_type ≠ key_curve then
    .error .CurveMismatch
  else if self.commitment.curve_type ≠ signature_curve then
    .error .CurveMismatch
  else
    let mega_type := expected_mega_type self.commitment.ctype
    match self.ciphertext.verify_is mega_type key_curve signature_curve with
    | .error e => .error e
    | .ok _ =>
      match self.ciphertext.decrypt_and_check self.commitment associated_data dealer_index
          recipient_index private_key public_key with
      | .error e => .error e
      | .ok _opening => .ok ()

/-! Modelled from the spec: the canonical self-describing binary encoding of
a dealing (standing in for the CBOR codec, which is an external
collaborator).  Encoders emit a token stream; decoders consume a prefix and
return the remaining tokens, rejecting anything that is not a whole valid
encoding. -/

def enc_curve : EccCurveType → List Nat
  | .K256 => [0]
  | .P256 => [1]

def dec_curve : List Nat → Option (EccCurveType × List Nat)
  | 0 :: rest => some (.K256, rest)
  | 1 :: rest => some (.P256, rest)
  | _ => none

def dec_nat : List Nat → Option (Nat × List Nat)
  | [] => none
  | n :: rest => some (n, rest)

def enc_list_nat (xs : List Nat) : List Nat :=
  xs.length :: xs

def dec_count : Nat → List Nat → Option (List Nat × List Nat)
  | 0, rest => some ([], rest)
  | _ + 1, [] => none
  | n + 1, x :: rest =>
    match dec_count n rest with
    | none => none
    | some (xs, r) => some (x :: xs, r)

def dec_list_nat (input : List Nat) : Option (List Nat × List Nat) :=
  match dec_nat input with
  | none => none
  | some (n, rest) => dec_count n rest

def enc_pair_list (xs : List (Nat × Nat)) : List Nat :=
  xs.length :: xs.foldr (fun p acc => p.1 :: p.2 :: acc) []

def dec_pair_count : Nat → List Nat → Option (List (Nat × Nat) × List Nat)
  | 0, rest => some ([], rest)
  | n + 1, a :: b :: rest =>
    match dec_pair_count n rest with
    | none => none
    | some (xs, r) => some ((a, b) :: xs, r)
  | _ + 1, _ => none

def dec_pair_list (input : List Nat) : Option (List (Nat × Nat) × List Nat) :=
  match dec_nat input with
  | none => none
  | some (n, rest) => dec_pair_count n rest

def enc_point (p : EccPoint) : List Nat :=
  enc_curve p.curve ++ [p.val]

def dec_point (input : List Nat) : Option (EccPoint × List Nat) :=
  match dec_curve input with
  | none => none
  | some (c, rest) =>
    match dec_nat rest with
    | none => none
    | some (v, rest2) => some (⟨c, v⟩, rest2)

def enc_ciphertext : MEGaCiphertext → List Nat
  | .Single s =>
    0 :: (enc_curve s.epk_curve ++ enc_curve s.ctext_curve ++ [s.dealer_index] ++
      enc_list_nat s.associated_data ++ enc_list_nat s.ctexts)
  | .Pairs p =>
    1 :: (enc_curve p.epk_curve ++ enc_curve p.ctext_curve ++ [p.dealer_index] ++
      enc_list_nat p.associated_data ++ enc_pair_list p.ctexts)

def dec_ciphertext (input : List Nat) : Option (MEGaCiphertext × List Nat) :=
  match input with
  | 0 :: rest =>
    match dec_curve rest with
    | none => none
    | some (ek, r1) =>
      match dec_curve r1 with
      | none => none
      | some (ck, r2) =>
        match dec_nat r2 with
        | none => none
        | some (di, r3) =>
          match dec_list_nat r3 with
          | none => none
          | some (ad, r4) =>
            match dec_list_nat r4 with
            | none => none
            | some (cts, r5) => some (.Single ⟨ek, ck, di, ad, cts⟩, r5)
  | 1 :: rest =>
    match dec_curve rest with
    | none => none
    | some (ek, r1) =>
      match dec_curve r1 with
      | none => none
      | some (ck, r2) =>
        match dec_nat r2 with
        | none => none
        | some (di, r3) =>
          match dec_list_nat r3 with
          | none => none
          | some (ad, r4) =>
            match dec_pair_list r4 with
            | none => none
            | some (cts, r5) => some (.Pairs ⟨ek, ck, di, ad, cts⟩, r5)
  | _ => none

def enc_commitment : PolynomialCommitment → List Nat
  | .Simple c => 0 :: (enc_curve c.curve ++ enc_list_nat c.points)
  | .Pedersen c => 1 :: (enc_curve c.curve ++ enc_list_nat c.points)

def dec_commitment (input : List Nat) : Option (PolynomialCommitment × List Nat) :=
  match input with
  | 0 :: rest =>
    match dec_curve rest with
    | none => none
    | some (c, r1) =>
      match dec_list_nat r1 with
      | none => none
      | some (pts, r2) => some (.Simple ⟨c, pts⟩, r2)
  | 1 :: rest =>
    match dec_curve rest with
    | none => none
    | some (c, r1) =>
      match dec_list_nat r1 with
      | none => none
      | some (pts, r2) => some (.Pedersen ⟨c, pts⟩, r2)
  | _ => none

def enc_proof : ZkProof → List Nat
  | .ProofOfMaskedResharing p =>
    0 :: (enc_point p.masked ++ enc_point p.simple ++ enc_list_nat p.associated_data)
  | .ProofOfProduct p =>
    1 :: (enc_point p.lhs ++ enc_point p.rhs ++ enc_point p.product ++
      enc_list_nat p.associated_data)

def dec_proof (input : List Nat) : Option (ZkProof × List Nat) :=
  match input with
  | 0 :: rest =>
    match dec_point rest with
    | none => none
    | some (ma, r1) =>
      match dec_point r1 with
      | none => none
      | some (si, r2) =>
        match dec_list_nat r2 with
        | none => none
        | some (ad, r3) => some (.ProofOfMaskedResharing ⟨ma, si, ad⟩, r3)
  | 1 :: rest =>
    match dec_point rest with
    | none => none
    | some (l, r1) =>
      match dec_point r1 with
      | none => none
      | some (r, r2) =>
        match dec_point r2 with
        | none => none
        | some (pr, r3) =>
          match dec_list_nat r3 with
          | none => none
          | some (ad, r4) => some (.ProofOfProduct ⟨l, r, pr, ad⟩, r4)
  | _ => none

def enc_proof_opt : Option ZkProof → List Nat
  | none => [0]
  | some z => 1 :: enc_proof z

def dec_proof_opt (input : List Nat) : Option (Option ZkProof × List Nat) :=
  match input with
  | 0 :: rest => some (none, rest)
  | 1 :: rest =>
    match dec_proof rest with
    | none => none
    | some (z, r1) => some (some z, r1)
  | _ => none

/-- Translation of `IDkgDealingInternal::serialize`, with the codec modelled
from the spec. -/
def IDkgDealingInternal.serialize (self : IDkgDealingInternal) :
    Except ThresholdEcdsaSerializationError (List Nat) :=
  .ok (enc_ciphertext self.ciphertext ++ enc_commitment self.commitment ++
    enc_proof_opt self.proof)

/-- Translation of `IDkgDealingInternal::deserialize`, with the codec modelled
from the spec: decode whole or reject whole. -/
def IDkgDealingInternal.deserialize (bytes : List Nat) :
    Except ThresholdEcdsaSerializationError IDkgDealingInternal :=
  match dec_ciphertext bytes with
  | none => .error ⟨"invalid ciphertext encoding"⟩
  | some (ciphertext, r1) =>
    match dec_commitment r1 with
    | none => .error ⟨"invalid commitment encoding"⟩
    | some (commitment, r2) =>
      match dec_proof_opt r2 with
      | none => .error ⟨"invalid proof encoding"⟩
      | some (proof, r3) =>
        if r3 = [] then .ok ⟨ciphertext, commitment, proof⟩
        else .error ⟨"trailing bytes"⟩

/-- The five (operation, proof) combinations enumerated by the dispatch in
`publicly_verify`. -/
def enumerated_combination :
    IDkgTranscriptOperationInternal → Option ZkProof → Bool
  | .Random, none => true
  | .RandomUnmasked, none => true
  | .ReshareOfMasked _, some (.ProofOfMaskedResharing _) => true
  | .ReshareOfUnmasked _, none => true
  | .UnmaskedTimesMasked _ _, some (.ProofOfProduct _) => true
  | _, _ => false

/-- The three recognized shapes of the `TryFrom` input pair. -/
def recognized_opening_shape :
    CommitmentOpeningBytes × Option CommitmentOpeningBytes → Bool
  | (.Simple _, none) => true
  | (.Pedersen _ _, none) => true
  | (.Simple _, some (.Pedersen _ _)) => true
  | (_, _) => false

theorem PolynomialCommitment.verify_is_ok_iff (c : PolynomialCommitment)
    (t : PolynomialCommitmentType) (curve : EccCurveType) :
    c.verify_is t curve = .ok () ↔ (c.ctype = t ∧ c.curve_type = curve) := by
  unfold PolynomialCommitment.verify_is
  by_cases h1 : c.ctype = t <;> by_cases h2 : c.curve_type = curve <;> simp [h1, h2]

theorem MEGaCiphertext.verify_is_ok_ctype (c : MEGaCiphertext)
    (t : MEGaCiphertextType) (key_curve signature_curve : EccCurveType)
    (h : c.verify_is t key_curve signature_curve = .ok ()) : c.ctype = t := by
  unfold MEGaCiphertext.verify_is at h
  by_cases h1 : c.ctype = t
  · exact h1
  · simp [h1] at h

/-- Claim C9: the debug representation of a `SecretShares` value is a
function of the variant tag and the curve types of its embedded scalars
alone — it is independent of the scalar values, so no secret scalar bytes
can appear in it — and it always is one of a fixed, finite set of strings
(in particular the unsupported-curve-combination arms produce a fixed
warning string instead of panicking). -/
theorem secret_shares_debug_redaction (s : SecretShares) :
    SecretShares.debug_fmt s = shape_fmt (SecretShares.shape s) ∧
    SecretShares.debug_fmt s ∈ debug_strings := by
  constructor
  · cases s with
    | Random => rfl
    | RandomUnmasked => rfl
    | ReshareOfUnmasked sc => cases sc <;> rfl
    | ReshareOfMasked sc m => cases sc <;> cases m <;> rfl
    | UnmaskedTimesMasked l r =>
      obtain ⟨r1, r2⟩ := r
      cases l <;> cases r1 <;> cases r2 <;> rfl
  · cases s with
    | Random => simp [SecretShares.debug_fmt, debug_strings]
    | RandomUnmasked => simp [SecretShares.debug_fmt, debug_strings]
    | ReshareOfUnmasked sc =>
      cases sc <;> simp [SecretShares.debug_fmt, debug_strings]
    | ReshareOfMasked sc m =>
      cases sc <;> cases m <;> simp [SecretShares.debug_fmt, debug_strings]
    | UnmaskedTimesMasked l r =>
      obtain ⟨r1, r2⟩ := r
      cases l <;> cases r1 <;> cases r2 <;> simp [SecretShares.debug_fmt, debug_strings]

/-- Claim C9 witness: concrete evaluation of the redaction property on a
mixed-curve descriptor. -/
theorem secret_shares_debug_redaction_witness :
    SecretShares.debug_fmt (.ReshareOfMasked (.K256 123) (.P256 456)) =
      shape_fmt (SecretShares.shape (.ReshareOfMasked (.K256 123) (.P256 456))) ∧
    SecretShares.debug_fmt (.ReshareOfMasked (.K256 123) (.P256 456)) ∈ debug_strings :=
  secret_shares_debug_redaction (.ReshareOfMasked (.K256 123) (.P256 456))

/-- Claim C10: the conversion from commitment-opening bytes maps
`(Simple, None)` to `ReshareOfUnmasked`, `(Pedersen, None)` to
`ReshareOfMasked`, `(Simple, Some Pedersen)` to `UnmaskedTimesMasked`,
rejects every other shape with a serialization error, and can never produce
`Random` or `RandomUnmasked`. -/
theorem secret_shares_try_from_shape (b : CommitmentOpeningBytes)
    (o : Option CommitmentOpeningBytes) :
    (recognized_opening_shape (b, o) = false →
      SecretShares.try_from (b, o) = .error ⟨"Unexpected commitment types"⟩) ∧
    (∀ s, SecretShares.try_from (b, o) = .ok s →
      s ≠ .Random ∧ s ≠ .RandomUnmasked) ∧
    (∀ bs, b = .Simple bs → o = none →
      ∀ s, SecretShares.try_from (b, o) = .ok s → ∃ sc, s = .ReshareOfUnmasked sc) ∧
    (∀ b1 b2, b = .Pedersen b1 b2 → o = none →
      ∀ s, SecretShares.try_from (b, o) = .ok s → ∃ s1 s2, s = .ReshareOfMasked s1 s2) ∧
    (∀ bs p1 p2, b = .Simple bs → o = some (.Pedersen p1 p2) →
      ∀ s, SecretShares.try_from (b, o) = .ok s →
        ∃ l r rm, s = .UnmaskedTimesMasked l (r, rm)) := by
  refine ⟨?_, ?_, ?_, ?_, ?_⟩
  · intro hshape
    cases b with
    | Simple bs =>
      cases o with
      | none => simp [recognized_opening_shape] at hshape
      | some oc =>
        cases oc with
        | Simple obs => rfl
        | Pedersen ob1 ob2 => simp [recognized_opening_shape] at hshape
    | Pedersen b1 b2 =>
      cases o with
      | none => simp [recognized_opening_shape] at hshape
      | some oc => cases oc <;> rfl
  · intro s hs
    cases b with
    | Simple bs =>
      cases o with
      | none =>
        simp only [SecretShares.try_from] at hs
        cases h1 : EccScalar.try_from_bytes bs <;> simp [h1] at hs
        subst hs
        exact ⟨by simp, by simp⟩
      | some oc =>
        cases oc with
        | Simple obs => simp [SecretShares.try_from] at hs
        | Pedersen ob1 ob2 =>
          simp only [SecretShares.try_from] at hs
          cases h1 : EccScalar.try_from_bytes bs <;> simp [h1] at hs
          cases h2 : EccScalar.try_from_bytes ob1 <;> simp [h2] at hs
          cases h3 : EccScalar.try_from_bytes ob2 <;> simp [h3] at hs
          subst hs
          exact ⟨by simp, by simp⟩
    | Pedersen b1 b2 =>
      cases o with
      | none =>
        simp only [SecretShares.try_from] at hs
        cases h1 : EccScalar.try_from_bytes b1 <;> simp [h1] at hs
        cases h2 : EccScalar.try_from_bytes b2 <;> simp [h2] at hs
        subst hs
        exact ⟨by simp, by simp⟩
      | some oc => cases oc <;> simp [SecretShares.try_from] at hs
  · rintro bs rfl rfl s hs
    simp only [SecretShares.try_from] at hs
    cases h1 : EccScalar.try_from_bytes bs <;> simp [h1] at hs
    exact ⟨_, hs.symm⟩
  · rintro b1 b2 rfl rfl s hs
    simp only [SecretShares.try_from] at hs
    cases h1 : EccScalar.try_from_bytes b1 <;> simp [h1] at hs
    cases h2 : EccScalar.try_from_bytes b2 <;> simp [h2] at hs
    exact ⟨_, _, hs.symm⟩
  · rintro bs p1 p2 rfl rfl s hs
    simp only [SecretShares.try_from] at hs
    cases h1 : EccScalar.try_from_bytes bs <;> simp [h1] at hs
    cases h2 : EccScalar.try_from_bytes p1 <;> simp [h2] at hs
    cases h3 : EccScalar.try_from_bytes p2 <;> simp [h3] at hs
    exact ⟨_, _, _, hs.symm⟩

/-- Claim C10 witness: the unrecognized shape `(Pedersen, Some Simple)` is
rejected with the serialization error. -/
theorem secret_shares_try_from_shape_witness :
    SecretShares.try_from (.Pedersen (.K256 1) (.K256 2), some (.Simple (.K256 3))) =
      .error ⟨"Unexpected commitment types"⟩ :=
  (secret_shares_try_from_shape (.Pedersen (.K256 1) (.K256 2))
    (some (.Simple (.K256 3)))).1 (by rfl)

theorem dec_curve_enc (c : EccCurveType) (r : List Nat) :
    dec_curve (enc_curve c ++ r) = some (c, r) := by
  cases c <;> rfl

theorem dec_count_append (xs r : List Nat) :
    dec_count xs.length (xs ++ r) = some (xs, r) := by
  induction xs with
  | nil => rfl
  | cons x tl ih => simp [dec_count, ih]

theorem dec_list_nat_enc (xs r : List Nat) :
    dec_list_nat (enc_list_nat xs ++ r) = some (xs, r) := by
  simp [enc_list_nat, dec_list_nat, dec_nat, dec_count_append]

theorem dec_pair_count_append (xs : List (Nat × Nat)) (r : List Nat) :
    dec_pair_count xs.length (xs.foldr (fun p acc => p.1 :: p.2 :: acc) [] ++ r) =
      some (xs, r) := by
  induction xs with
  | nil => rfl
  | cons x tl ih => simp [dec_pair_count, ih]

theorem dec_pair_list_enc (xs : List (Nat × Nat)) (r : List Nat) :
    dec_pair_list (enc_pair_list xs ++ r) = some (xs, r) := by
  simp [enc_pair_list, dec_pair_list, dec_nat, dec_pair_count_append]

theorem dec_point_enc (p : EccPoint) (r : List Nat) :
    dec_point (enc_point p ++ r) = some (p, r) := by
  obtain ⟨c, v⟩ := p
  cases c <;> rfl

theorem dec_ciphertext_enc (c : MEGaCiphertext) (r : List Nat) :
    dec_ciphertext (enc_ciphertext c ++ r) = some (c, r) := by
  cases c with
  | Single s =>
    obtain ⟨ek, ck, di, ad, cts⟩ := s
    simp [enc_ciphertext, dec_ciphertext, dec_curve_enc, dec_nat, dec_list_nat_enc,
      List.append_assoc]
  | Pairs p =>
    obtain ⟨ek, ck, di, ad, cts⟩ := p
    simp [enc_ciphertext, dec_ciphertext, dec_curve_enc, dec_nat, dec_list_nat_enc,
      dec_pair_list_enc, List.append_assoc]

theorem dec_commitment_enc (c : PolynomialCommitment) (r : List Nat) :
    dec_commitment (enc_commitment c ++ r) = some (c, r) := by
  cases c with
  | Simple s =>
    obtain ⟨cv, pts⟩ := s
    simp [enc_commitment, dec_commitment, dec_curve_enc, dec_list_nat_enc, List.append_assoc]
  | Pedersen p =>
    obtain ⟨cv, pts⟩ := p
    simp [enc_commitment, dec_commitment, dec_curve_enc, dec_list_nat_enc, List.append_assoc]

theorem dec_proof_enc (z : ZkProof) (r : List Nat) :
    dec_proof (enc_proof z ++ r) = some (z, r) := by
  cases z with
  | ProofOfMaskedResharing p =>
    obtain ⟨ma, si, ad⟩ := p
    simp [enc_proof, dec_proof, dec_point_enc, dec_list_nat_enc, List.append_assoc]
  | ProofOfProduct p =>
    obtain ⟨l, rh, pr, ad⟩ := p
    simp [enc_proof, dec_proof, dec_point_enc, dec_list_nat_enc, List.append_assoc]

theorem dec_proof_opt_enc (z : Option ZkProof) (r : List Nat) :
    dec_proof_opt (enc_proof_opt z ++ r) = some (z, r) := by
  cases z with
  | none => rfl
  | some zp =>
    simp [enc_proof_opt, dec_proof_opt, dec_proof_enc]

/-- Claim C8: serialization round-trip — for every dealing `d`,
`deserialize (serialize d)` succeeds and returns a dealing structurally
equal to `d`. -/
theorem serialize_deserialize_roundtrip (d : IDkgDealingInternal) :
    Except.bind d.serialize IDkgDealingInternal.deserialize = .ok d := by
  obtain ⟨ct, cm, pf⟩ := d
  show IDkgDealingInternal.deserialize
    (enc_ciphertext ct ++ enc_commitment cm ++ enc_proof_opt pf) = .ok ⟨ct, cm, pf⟩
  have h3 : dec_proof_opt (enc_proof_opt pf) = some (pf, []) := by
    have := dec_proof_opt_enc pf []
    simpa using this
  simp [IDkgDealingInternal.deserialize, List.append_assoc, dec_ciphertext_enc,
    dec_commitment_enc, h3]

/-- Claim C1: `publicly_verify` is fail-closed over the
(transcript operation, attached proof) dispatch — when the commitment-length
check and the ciphertext validity check pass, any (operation, proof) pair
outside the five enumerated combinations yields `InvalidProof`. -/
theorem publicly_verify_fail_closed (d : IDkgDealingInternal)
    (key_curve signature_curve : EccCurveType)
    (tt : IDkgTranscriptOperationInternal) (rt di nr : Nat) (ad : List Nat)
    (hlen : d.commitment.len = rt)
    (hct : d.ciphertext.check_validity nr ad di = .ok ())
    (hcombo : enumerated_combination tt d.proof = false) :
    d.publicly_verify key_curve signature_curve tt rt di nr ad = .error .InvalidProof := by
  have hlen2 : ¬d.commitment.len ≠ rt := by simp [hlen]
  simp only [IDkgDealingInternal.publicly_verify, if_neg hlen2, hct]
  cases tt <;> rcases hp : d.proof with _ | z <;> try cases z
  all_goals simp_all [enumerated_combination]

/-- Claim C1 witness: a `ReshareOfMasked` operation paired with a missing
proof is rejected with `InvalidProof`. -/
theorem publicly_verify_fail_closed_witness :
    IDkgDealingInternal.publicly_verify
      ⟨.Single ⟨.K256, .K256, 0, [], [5]⟩, .Simple ⟨.K256, [3]⟩, none⟩
      .K256 .K256 (.ReshareOfMasked (.Pedersen ⟨.K256, [2]⟩)) 1 0 1 [] =
      .error .InvalidProof :=
  publicly_verify_fail_closed
    ⟨.Single ⟨.K256, .K256, 0, [], [5]⟩, .Simple ⟨.K256, [3]⟩, none⟩
    .K256 .K256 (.ReshareOfMasked (.Pedersen ⟨.K256, [2]⟩)) 1 0 1 []
    (by rfl) (by rfl) (by rfl)

/-- Claim C2 counterexample: a dealing whose commitment degree equals the
reconstruction threshold is rejected with `InvalidCommitment` (the code
compares the commitment length, i.e. degree + 1, with the threshold), while
the same dealing passes in full when the reconstruction threshold equals the
commitment length — so the degree-based reading of the first check in the claim
is false. -/
theorem publicly_verify_degree_check_counterexample :
    PolynomialCommitment.degree (.Pedersen ⟨.K256, [7]⟩) = 0 ∧
    IDkgDealingInternal.publicly_verify
      ⟨.Pairs ⟨.K256, .K256, 0, [], [(1, 2)]⟩, .Pedersen ⟨.K256, [7]⟩, none⟩
      .K256 .K256 .Random 0 0 1 [] = .error .InvalidCommitment ∧
    IDkgDealingInternal.publicly_verify
      ⟨.Pairs ⟨.K256, .K256, 0, [], [(1, 2)]⟩, .Pedersen ⟨.K256, [7]⟩, none⟩
      .K256 .K256 .Random 1 0 1 [] = .ok () :=
  ⟨by rfl, by rfl, by rfl⟩

/-- Claim C2 (amended): the first check of `publicly_verify` compares the
commitment length (the number of committed coefficients, i.e. degree + 1)
with the reconstruction threshold, failing with `InvalidCommitment` on
mismatch before the ciphertext validity check and before the
(operation, proof) dispatch; when it passes, a ciphertext validity failure
is propagated next, before the dispatch. -/
theorem publicly_verify_length_check_first (d : IDkgDealingInternal)
    (key_curve signature_curve : EccCurveType)
    (tt : IDkgTranscriptOperationInternal) (rt di nr : Nat) (ad : List Nat)
    (e : ThresholdEcdsaError) :
    (d.commitment.len ≠ rt →
      d.publicly_verify key_curve signature_curve tt rt di nr ad =
        .error .InvalidCommitment) ∧
    (d.commitment.len = rt →
      d.ciphertext.check_validity nr ad di = .error e →
      d.publicly_verify key_curve signature_curve tt rt di nr ad = .error e) := by
  constructor
  · intro hne
    simp only [IDkgDealingInternal.publicly_verify, if_pos hne]
  · intro hlen hcv
    have hlen2 : ¬d.commitment.len ≠ rt := by simp [hlen]
    simp only [IDkgDealingInternal.publicly_verify, if_neg hlen2, hcv]

/-- Claim C2 witness: concrete instantiations of both orderings — a length
mismatch yields `InvalidCommitment` regardless of anything else, and with
the length right an invalid ciphertext binding is propagated. -/
theorem publicly_verify_length_check_first_witness :
    IDkgDealingInternal.publicly_verify
      ⟨.Single ⟨.K256, .K256, 0, [], [5]⟩, .Simple ⟨.K256, [3]⟩, none⟩
      .K256 .K256 .RandomUnmasked 2 0 1 [] = .error .InvalidCommitment ∧
    IDkgDealingInternal.publicly_verify
      ⟨.Single ⟨.K256, .K256, 9, [], [5]⟩, .Simple ⟨.K256, [3]⟩, none⟩
      .K256 .K256 .RandomUnmasked 1 0 1 [] = .error .InvalidCiphertext :=
  ⟨(publicly_verify_length_check_first
      ⟨.Single ⟨.K256, .K256, 0, [], [5]⟩, .Simple ⟨.K256, [3]⟩, none⟩
      .K256 .K256 .RandomUnmasked 2 0 1 [] .InvalidCiphertext).1 (by decide),
   (publicly_verify_length_check_first
      ⟨.Single ⟨.K256, .K256, 9, [], [5]⟩, .Simple ⟨.K256, [3]⟩, none⟩
      .K256 .K256 .RandomUnmasked 1 0 1 [] .InvalidCiphertext).2 (by rfl) (by rfl)⟩

/-- Claim C3: for the `ReshareOfUnmasked(prev)` operation, success of
`publicly_verify` requires: no attached proof, a Simple dealing commitment,
a Simple `prev`, a Single ciphertext, and `prev` evaluated at the dealer
index equal to the constant term of the dealing commitment; and when all the
preliminary checks pass but that equality fails, the result is
`InvalidCommitment`. -/
theorem publicly_verify_reshare_of_unmasked (d : IDkgDealingInternal)
    (key_curve signature_curve : EccCurveType) (prev : PolynomialCommitment)
    (rt di nr : Nat) (ad : List Nat) :
    (d.publicly_verify key_curve signature_curve (.ReshareOfUnmasked prev) rt di nr ad =
        .ok () →
      d.proof = none ∧ d.commitment.ctype = .Simple ∧ prev.ctype = .Simple ∧
      d.ciphertext.ctype = .Single ∧
      prev.evaluate_at di = d.commitment.constant_term) ∧
    (d.commitment.len = rt →
      d.ciphertext.check_validity nr ad di = .ok () →
      d.proof = none →
      d.commitment.verify_is .Simple signature_curve = .ok () →
      prev.verify_is .Simple signature_curve = .ok () →
      d.ciphertext.verify_is .Single key_curve signature_curve = .ok () →
      prev.evaluate_at di ≠ d.commitment.constant_term →
      d.publicly_verify key_curve signature_curve (.ReshareOfUnmasked prev) rt di nr ad =
        .error .InvalidCommitment) := by
  constructor
  · intro hok
    unfold IDkgDealingInternal.publicly_verify at hok
    by_cases hlen : d.commitment.len ≠ rt
    · rw [if_pos hlen] at hok
      simp at hok
    · rw [if_neg hlen] at hok
      cases hcv : d.ciphertext.check_validity nr ad di with
      | error e => rw [hcv] at hok; simp at hok
      | ok u =>
        cases u
        rw [hcv] at hok
        rcases hp : d.proof with _ | z
        · rw [hp] at hok
          simp only [] at hok
          cases hv1 : d.commitment.verify_is .Simple signature_curve with
          | error e => rw [hv1] at hok; simp at hok
          | ok u1 =>
            cases u1
            rw [hv1] at hok
            cases hv2 : prev.verify_is .Simple signature_curve with
            | error e => rw [hv2] at hok; simp at hok
            | ok u2 =>
              cases u2
              rw [hv2] at hok
              cases hv3 : d.ciphertext.verify_is .Single key_curve signature_curve with
              | error e => rw [hv3] at hok; simp at hok
              | ok u3 =>
                cases u3
                rw [hv3] at hok
                obtain ⟨hp2t, _⟩ :=
                  (PolynomialCommitment.verify_is_ok_iff prev .Simple signature_curve).mp hv2
                obtain ⟨hc1t, _⟩ :=
                  (PolynomialCommitment.verify_is_ok_iff d.commitment .Simple
                    signature_curve).mp hv1
                have hc3t := MEGaCiphertext.verify_is_ok_ctype _ _ _ _ hv3
                cases prev with
                | Pedersen p => simp [PolynomialCommitment.ctype] at hp2t
                | Simple c =>
                  simp only [] at hok
                  by_cases heq : c.evaluate_at di ≠ d.commitment.constant_term
                  · rw [if_pos heq] at hok; simp at hok
                  · refine ⟨rfl, hc1t, hp2t, hc3t, ?_⟩
                    simpa [PolynomialCommitment.evaluate_at] using not_not.mp heq
        · rw [hp] at hok
          cases z <;> simp at hok
  · intro hlen hcv hp hv1 hv2 hv3 hne
    have hlen2 : ¬d.commitment.len ≠ rt := by simp [hlen]
    obtain ⟨hp2t, _⟩ :=
      (PolynomialCommitment.verify_is_ok_iff prev .Simple signature_curve).mp hv2
    cases prev with
    | Pedersen p => simp [PolynomialCommitment.ctype] at hp2t
    | Simple c =>
      have hne2 : c.evaluate_at di ≠ d.commitment.constant_term := by
        simpa [PolynomialCommitment.evaluate_at] using hne
      simp only [IDkgDealingInternal.publicly_verify, if_neg hlen2, hcv, hp, hv1, hv2, hv3,
        if_pos hne2]

/-- Claim C3 witness: a Simple resharing dealing whose commitment constant
term disagrees with the previous commitment evaluated at the dealer index is
rejected with `InvalidCommitment`. -/
theorem publicly_verify_reshare_of_unmasked_witness :
    IDkgDealingInternal.publicly_verify
      ⟨.Single ⟨.K256, .K256, 0, [], [9]⟩, .Simple ⟨.K256, [4]⟩, none⟩
      .K256 .K256 (.ReshareOfUnmasked (.Simple ⟨.K256, [5]⟩)) 1 0 1 [] =
      .error .InvalidCommitment :=
  (publicly_verify_reshare_of_unmasked
    ⟨.Single ⟨.K256, .K256, 0, [], [9]⟩, .Simple ⟨.K256, [4]⟩, none⟩
    .K256 .K256 (.Simple ⟨.K256, [5]⟩) 1 0 1 []).2
    (by rfl) (by rfl) (by rfl) (by rfl) (by rfl) (by rfl) (by decide)

theorem mega_encrypt_single_error (seed : Seed) (plaintexts : List EccScalar)
    (recipients : List MEGaPublicKey) (di : Nat) (ad : List Nat)
    (e : ThresholdEcdsaError)
    (h : MEGaCiphertextSingle.encrypt seed plaintexts recipients di ad = .error e) :
    e.isInvalidThreshold = false := by
  unfold MEGaCiphertextSingle.encrypt at h
  split at h
  · injection h with h2
    subst h2
    rfl
  · split at h
    · injection h with h2
      subst h2
      rfl
    · split at h
      · injection h with h2
        subst h2
        rfl
      · split at h
        · injection h with h2
          subst h2
          rfl
        · simp at h

theorem mega_encrypt_pair_error (seed : Seed) (plaintexts : List (EccScalar × EccScalar))
    (recipients : List MEGaPublicKey) (di : Nat) (ad : List Nat)
    (e : ThresholdEcdsaError)
    (h : MEGaCiphertextPair.encrypt seed plaintexts recipients di ad = .error e) :
    e.isInvalidThreshold = false := by
  unfold MEGaCiphertextPair.encrypt at h
  split at h
  · injection h with h2
    subst h2
    rfl
  · split at h
    · injection h with h2
      subst h2
      rfl
    · split at h
      · injection h with h2
        subst h2
        rfl
      · split at h
        · injection h with h2
          subst h2
          rfl
        · simp at h

theorem encrypt_and_commit_single_error (poly : Polynomial) (n : Nat)
    (recipients : List MEGaPublicKey) (di : Nat) (ad : List Nat) (seed : Seed)
    (e : ThresholdEcdsaError)
    (h : encrypt_and_commit_single_polynomial poly n recipients di ad seed = .error e) :
    e.isInvalidThreshold = false := by
  unfold encrypt_and_commit_single_polynomial at h
  simp only [] at h
  split at h
  · rename_i e0 heq
    injection h with h2
    subst h2
    exact mega_encrypt_single_error _ _ _ _ _ _ heq
  · simp at h

theorem encrypt_and_commit_pair_error (values mask : Polynomial) (n : Nat)
    (recipients : List MEGaPublicKey) (di : Nat) (ad : List Nat) (seed : Seed)
    (e : ThresholdEcdsaError)
    (h : encrypt_and_commit_pair_of_polynomials values mask n recipients di ad seed =
      .error e) :
    e.isInvalidThreshold = false := by
  unfold encrypt_and_commit_pair_of_polynomials at h
  simp only [] at h
  split at h
  · rename_i e0 heq
    injection h with h2
    subst h2
    exact mega_encrypt_pair_error _ _ _ _ _ _ heq
  · simp at h

theorem zk_equal_openings_create_error (seed : Seed) (secret masking : EccScalar)
    (ad : List Nat) (e : ThresholdEcdsaError)
    (h : zk.ProofOfEqualOpenings.create seed secret masking ad = .error e) :
    e.isInvalidThreshold = false := by
  unfold zk.ProofOfEqualOpenings.create at h
  split at h
  · injection h with h2
    subst h2
    rfl
  · simp at h

theorem zk_product_create_error (seed : Seed) (l r rm p pm : EccScalar)
    (ad : List Nat) (e : ThresholdEcdsaError)
    (h : zk.ProofOfProduct.create seed l r rm p pm ad = .error e) :
    e.isInvalidThreshold = false := by
  unfold zk.ProofOfProduct.create at h
  split at h
  · injection h with h2
    subst h2
    rfl
  · simp at h

/-- When the threshold precondition holds, no later step of dealing
construction can produce an `InvalidThreshold` error. -/
theorem new_no_late_invalid_threshold (shares : SecretShares)
    (signature_curve : EccCurveType) (seed : Seed) (threshold : Nat)
    (recipients : List MEGaPublicKey) (di : Nat) (ad : List Nat)
    (hcond : ¬(threshold = 0 ∨ threshold > recipients.length))
    (e : ThresholdEcdsaError)
    (he : IDkgDealingInternal.new shares signature_curve seed threshold recipients di ad =
      .error e) :
    e.isInvalidThreshold = false := by
  unfold IDkgDealingInternal.new at he
  rw [if_neg hcond] at he
  cases shares with
  | Random =>
    simp only [] at he
    split at he
    · rename_i e0 heq
      injection he with h2
      subst h2
      exact encrypt_and_commit_pair_error _ _ _ _ _ _ _ _ heq
    · simp at he
  | RandomUnmasked =>
    simp only [] at he
    split at he
    · rename_i e0 heq
      injection he with h2
      subst h2
      exact encrypt_and_commit_single_error _ _ _ _ _ _ _ heq
    · simp at he
  | ReshareOfUnmasked secret =>
    simp only [] at he
    split at he
    · injection he with h2
      subst h2
      rfl
    · split at he
      · rename_i e0 heq
        injection he with h2
        subst h2
        exact encrypt_and_commit_single_error _ _ _ _ _ _ _ heq
      · simp at he
  | ReshareOfMasked secret masking =>
    simp only [] at he
    split at he
    · injection he with h2
      subst h2
      rfl
    · split at he
      · rename_i e0 heq
        injection he with h2
        subst h2
        exact encrypt_and_commit_single_error _ _ _ _ _ _ _ heq
      · split at he
        · rename_i e0 heq
          injection he with h2
          subst h2
          exact zk_equal_openings_create_error _ _ _ _ _ heq
        · simp at he
  | UnmaskedTimesMasked left_value right =>
    obtain ⟨right_value, right_masking⟩ := right
    simp only [] at he
    split at he
    · injection he with h2
      subst h2
      rfl
    · split at he
      · injection he with h2
        subst h2
        rfl
      · split at he
        · rename_i e0 heq
          injection he with h2
          subst h2
          exact encrypt_and_commit_pair_error _ _ _ _ _ _ _ _ heq
        · split at he
          · rename_i e0 heq
            injection he with h2
            subst h2
            exact zk_product_create_error _ _ _ _ _ _ _ _ heq
          · simp at he

/-- Claim C4: for every descriptor, curve, seed, dealer index and associated
data, `IDkgDealingInternal.new` returns the `InvalidThreshold` error exactly
when `threshold = 0` or `threshold > recipients.length`, and in that case
the result is the same for every seed — the rejection happens before any
randomness is derived from the seed. -/
theorem new_invalid_threshold (shares : SecretShares) (signature_curve : EccCurveType)
    (seed : Seed) (threshold : Nat) (recipients : List MEGaPublicKey)
    (di : Nat) (ad : List Nat) :
    ((threshold = 0 ∨ threshold > recipients.length) →
      IDkgDealingInternal.new shares signature_curve seed threshold recipients di ad =
        .error (.InvalidThreshold threshold recipients.length)) ∧
    (∀ e, IDkgDealingInternal.new shares signature_curve seed threshold recipients di ad =
        .error e → e.isInvalidThreshold = true →
      (threshold = 0 ∨ threshold > recipients.length)) ∧
    ((threshold = 0 ∨ threshold > recipients.length) →
      ∀ seed2,
        IDkgDealingInternal.new shares signature_curve seed threshold recipients di ad =
          IDkgDealingInternal.new shares signature_curve seed2 threshold recipients di ad) := by
  refine ⟨?_, ?_, ?_⟩
  · intro hcond
    unfold IDkgDealingInternal.new
    rw [if_pos hcond]
  · intro e he hit
    by_contra hcond
    have := new_no_late_invalid_threshold shares signature_curve seed threshold recipients
      di ad hcond e he
    rw [hit] at this
    exact absurd this (by simp)
  · intro hcond seed2
    unfold IDkgDealingInternal.new
    rw [if_pos hcond, if_pos hcond]

/-- Claim C4 witness: threshold 0 with no recipients is rejected with
`InvalidThreshold`, independently of the seed. -/
theorem new_invalid_threshold_witness :
    IDkgDealingInternal.new .Random .K256 ⟨1, []⟩ 0 [] 0 [] =
      .error (.InvalidThreshold 0 0) ∧
    IDkgDealingInternal.new .Random .K256 ⟨1, []⟩ 0 [] 0 [] =
      IDkgDealingInternal.new .Random .K256 ⟨99, ["x"]⟩ 0 [] 0 [] :=
  ⟨(new_invalid_threshold .Random .K256 ⟨1, []⟩ 0 [] 0 []).1 (Or.inl rfl),
   (new_invalid_threshold .Random .K256 ⟨1, []⟩ 0 [] 0 []).2.2 (Or.inl rfl) ⟨99, ["x"]⟩⟩

/-- Claim C5: a successfully constructed dealing carries no proof exactly
for the `Random`, `RandomUnmasked` and `ReshareOfUnmasked` descriptors; for
`ReshareOfMasked` it carries the `ProofOfMaskedResharing` created from the
secret, the masking scalar and the associated data (under the
domain-separated proof seed), and for `UnmaskedTimesMasked` it carries a
`ProofOfProduct`. -/
theorem new_proof_attachment (shares : SecretShares) (signature_curve : EccCurveType)
    (seed : Seed) (threshold : Nat) (recipients : List MEGaPublicKey)
    (di : Nat) (ad : List Nat) (d : IDkgDealingInternal)
    (hok : IDkgDealingInternal.new shares signature_curve seed threshold recipients di ad =
      .ok d) :
    (d.proof = none ↔
      (shares = .Random ∨ shares = .RandomUnmasked ∨
        ∃ s, shares = .ReshareOfUnmasked s)) ∧
    (∀ s m, shares = .ReshareOfMasked s m →
      ∃ p, zk.ProofOfEqualOpenings.create (Seed.derive seed zk.PROOF_OF_EQUAL_OPENINGS_DST)
          s m ad = .ok p ∧
        d.proof = some (.ProofOfMaskedResharing p)) ∧
    (∀ l r rm, shares = .UnmaskedTimesMasked l (r, rm) →
      ∃ p, d.proof = some (.ProofOfProduct p)) := by
  unfold IDkgDealingInternal.new at hok
  by_cases hcond : threshold = 0 ∨ threshold > recipients.length
  · rw [if_pos hcond] at hok
    simp at hok
  · rw [if_neg hcond] at hok
    cases shares with
    | Random =>
      simp only [] at hok
      split at hok
      · simp at hok
      · injection hok with h2
        subst h2
        refine ⟨by simp, ?_, ?_⟩
        · intro s m h
          simp at h
        · intro l r rm h
          simp at h
    | RandomUnmasked =>
      simp only [] at hok
      split at hok
      · simp at hok
      · injection hok with h2
        subst h2
        refine ⟨by simp, ?_, ?_⟩
        · intro s m h
          simp at h
        · intro l r rm h
          simp at h
    | ReshareOfUnmasked secret =>
      simp only [] at hok
      split at hok
      · simp at hok
      · split at hok
        · simp at hok
        · injection hok with h2
          subst h2
          refine ⟨by simp, ?_, ?_⟩
          · intro s m h
            simp at h
          · intro l r rm h
            simp at h
    | ReshareOfMasked secret masking =>
      simp only [] at hok
      split at hok
      · simp at hok
      · split at hok
        · simp at hok
        · split at hok
          · simp at hok
          · rename_i p heqp
            injection hok with h2
            subst h2
            refine ⟨by simp, ?_, ?_⟩
            · intro s m h
              injection h with h3 h4
              subst h3
              subst h4
              exact ⟨p, heqp, rfl⟩
            · intro l r rm h
              simp at h
    | UnmaskedTimesMasked left_value right =>
      obtain ⟨right_value, right_masking⟩ := right
      simp only [] at hok
      split at hok
      · simp at hok
      · split at hok
        · simp at hok
        · split at hok
          · simp at hok
          · split at hok
            · simp at hok
            · rename_i p heqp
              injection hok with h2
              subst h2
              refine ⟨by simp, ?_, ?_⟩
              · intro s m h
                simp at h
              · intro l r rm h
                injection h with h3 h4
                subst h3
                exact ⟨p, rfl⟩

set_option maxRecDepth 8192 in
/-- Claim C5 witness: a concrete `Random` dealing is constructed with no
attached proof. -/
theorem new_proof_attachment_witness :
    IDkgDealingInternal.proof
      ⟨.Pairs ⟨.K256, .K256, 0, [], [(8, 39)]⟩,
       .Pedersen ⟨.K256, [1 + 2 ^ 512 * 32]⟩, none⟩ = none :=
  (new_proof_attachment .Random .K256 ⟨0, []⟩ 1 [⟨.K256, 7⟩] 0 []
    ⟨.Pairs ⟨.K256, .K256, 0, [], [(8, 39)]⟩,
     .Pedersen ⟨.K256, [1 + 2 ^ 512 * 32]⟩, none⟩
    (by rfl)).1.mpr (Or.inl rfl)

/-- Whether some scalar embedded in a descriptor lies on a curve other than
the signature curve (the condition checked first in each scalar-carrying arm
of `IDkgDealingInternal::new`). -/
def embedded_scalar_curve_mismatch (shares : SecretShares)
    (signature_curve : EccCurveType) : Bool :=
  match shares with
  | .Random => false
  | .RandomUnmasked => false
  | .ReshareOfUnmasked s => s.curve_type ≠ signature_curve
  | .ReshareOfMasked s m =>
    s.curve_type ≠ signature_curve ∨ m.curve_type ≠ signature_curve
  | .UnmaskedTimesMasked l (r, rm) =>
    l.curve_type ≠ signature_curve ∨ r.curve_type ≠ signature_curve ∨
      rm.curve_type ≠ signature_curve

/-- Claim C6: for the scalar-carrying descriptors, a scalar on the wrong
curve makes `IDkgDealingInternal.new` fail with `InvalidSecretShare` — for
every seed, recipient list (of admissible length) and associated data, i.e.
before any polynomial, ciphertext, commitment or proof is computed. -/
theorem new_invalid_secret_share (shares : SecretShares) (signature_curve : EccCurveType)
    (seed : Seed) (threshold : Nat) (recipients : List MEGaPublicKey)
    (di : Nat) (ad : List Nat)
    (hcond : ¬(threshold = 0 ∨ threshold > recipients.length))
    (hm : embedded_scalar_curve_mismatch shares signature_curve = true) :
    IDkgDealingInternal.new shares signature_curve seed threshold recipients di ad =
      .error .InvalidSecretShare := by
  unfold IDkgDealingInternal.new
  rw [if_neg hcond]
  cases shares with
  | Random => simp [embedded_scalar_curve_mismatch] at hm
  | RandomUnmasked => simp [embedded_scalar_curve_mismatch] at hm
  | ReshareOfUnmasked secret =>
    have h : secret.curve_type ≠ signature_curve := by
      simpa [embedded_scalar_curve_mismatch] using hm
    simp only []
    rw [if_pos h]
  | ReshareOfMasked secret masking =>
    have h : secret.curve_type ≠ signature_curve ∨ masking.curve_type ≠ signature_curve := by
      simpa [embedded_scalar_curve_mismatch] using hm
    simp only []
    rw [if_pos h]
  | UnmaskedTimesMasked left_value right =>
    obtain ⟨right_value, right_masking⟩ := right
    have h : left_value.curve_type ≠ signature_curve ∨
        right_value.curve_type ≠ signature_curve ∨
        right_masking.curve_type ≠ signature_curve := by
      simpa [embedded_scalar_curve_mismatch] using hm
    simp only []
    rw [if_pos h]

/-- Claim C6 witness: resharing a P256 scalar under a K256 signature curve
is rejected with `InvalidSecretShare`. -/
theorem new_invalid_secret_share_witness :
    IDkgDealingInternal.new (.ReshareOfUnmasked (.P256 3)) .K256 ⟨0, []⟩ 1
      [⟨.K256, 7⟩] 0 [] = .error .InvalidSecretShare :=
  new_invalid_secret_share (.ReshareOfUnmasked (.P256 3)) .K256 ⟨0, []⟩ 1
    [⟨.K256, 7⟩] 0 [] (by decide) (by decide)

/-- Claim C7: `privately_verify` fails with `CurveMismatch` whenever the
curve of the private or public key differs from the key curve or the
commitment curve differs from the signature curve; and it succeeds exactly
when the curves match, the ciphertext declares the shape expected for the
commitment kind (`Single` for Simple, `Pairs` for Pedersen) with matching
curves, and decrypting the addressed share and cross-checking it against
the commitment evaluated at the receiver index succeeds. -/
theorem privately_verify_checks (d : IDkgDealingInternal)
    (key_curve signature_curve : EccCurveType)
    (private_key : MEGaPrivateKey) (public_key : MEGaPublicKey)
    (ad : List Nat) (di ri : Nat) :
    ((private_key.curve_type ≠ key_curve ∨ public_key.curve_type ≠ key_curve ∨
        d.commitment.curve_type ≠ signature_curve) →
      d.privately_verify key_curve signature_curve private_key public_key ad di ri =
        .error .CurveMismatch) ∧
    (d.privately_verify key_curve signature_curve private_key public_key ad di ri =
        .ok () ↔
      (private_key.curve_type = key_curve ∧ public_key.curve_type = key_curve ∧
       d.commitment.curve_type = signature_curve ∧
       d.ciphertext.verify_is (expected_mega_type d.commitment.ctype) key_curve
         signature_curve = .ok () ∧
       ∃ op, d.ciphertext.decrypt_and_check d.commitment ad di ri private_key public_key =
         .ok op)) := by
  constructor
  · intro hbad
    unfold IDkgDealingInternal.privately_verify
    by_cases h1 : private_key.curve_type ≠ key_curve ∨ public_key.curve_type ≠ key_curve
    · rw [if_pos h1]
    · rw [if_neg h1]
      have h2 : d.commitment.curve_type ≠ signature_curve := by tauto
      rw [if_pos h2]
  · unfold IDkgDealingInternal.privately_verify
    by_cases h1 : private_key.curve_type ≠ key_curve ∨ public_key.curve_type ≠ key_curve
    · rw [if_pos h1]
      constructor
      · intro h
        simp at h
      · rintro ⟨ha, hb, _⟩
        exact absurd h1 (by simp [ha, hb])
    · rw [if_neg h1]
      obtain ⟨h1a, h1b⟩ := not_or.mp h1
      rw [not_not] at h1a h1b
      by_cases h2 : d.commitment.curve_type ≠ signature_curve
      · rw [if_pos h2]
        constructor
        · intro h
          simp at h
        · rintro ⟨_, _, hc, _⟩
          exact absurd hc h2
      · rw [if_neg h2]
        rw [not_not] at h2
        simp only []
        cases hv : d.ciphertext.verify_is (expected_mega_type d.commitment.ctype)
            key_curve signature_curve with
        | error e =>
          simp
        | ok u =>
          cases u
          cases hd : d.ciphertext.decrypt_and_check d.commitment ad di ri
              private_key public_key with
          | error e =>
            simp
          | ok op =>
            simp [h1a, h1b, h2]

/-- Claim C7 witness: a private key on the wrong curve is rejected with
`CurveMismatch`. -/
theorem privately_verify_checks_witness :
    IDkgDealingInternal.privately_verify
      ⟨.Single ⟨.K256, .K256, 0, [], [5]⟩, .Simple ⟨.K256, [3]⟩, none⟩
      .K256 .K256 ⟨.P256, 1⟩ ⟨.K256, 1⟩ [] 0 0 = .error .CurveMismatch :=
  (privately_verify_checks
    ⟨.Single ⟨.K256, .K256, 0, [], [5]⟩, .Simple ⟨.K256, [3]⟩, none⟩
    .K256 .K256 ⟨.P256, 1⟩ ⟨.K256, 1⟩ [] 0 0).1 (Or.inl (by decide))

end Tecdsa
